import Mathlib

/-!
Verification development for the profiling-poll core
(`src/profilingpoll/models.py`): a shallow embedding of the data model
(Poll / Question / Answer / AnswerProfile / Walkthrough /
WalkthroughProfile) and of the denormalization reactions of the
`m2m_changed` signal handler `denormalize_walkthrough`, together with
the query helpers `get_first_question`, `get_question_list`,
`get_matching_profile`, `get_next_question`, `Question.get_index` and
`Question.next`.

Modelling conventions:
* entities are keyed by natural-number ids; foreign keys are stored as ids;
* the nullable float field `_progress` is modelled as `Option Rat`
  (exact rational arithmetic in place of IEEE floats);
* `datetime.now()` is modelled by an explicit `now : Nat` argument given
  to each mutating operation, so the nullable `_completed` field is an
  `Option Nat`;
* a raised `IndexError` that the source does not catch is modelled as
  `Except.error ()`; an `IndexError` the source catches and converts to
  `None` is modelled as `Option.none`;
* Django's m2m semantics are embedded explicitly: `add` of an
  already-linked object fires the signal with an empty `pk_set`, which
  the handler ignores; `remove` fires the signal with the given pk even
  when the link does not exist; deleting through-table rows with a raw
  queryset (`instance.answers.through.objects.filter(...).delete()`,
  line 186 of the source) does NOT fire `m2m_changed`, so no reaction
  runs for the deleted rows.
-/

/-- `AnswerProfile` (models.py line 111): join row giving the integer
weight `quantifier` that its answer contributes to profile `profile`.
The `answer` foreign key is implicit: rows are stored in
`Answer.answerprofiles` (the source's related_name). -/
structure AnswerProfile where
  profile : Nat
  quantifier : Int
  deriving DecidableEq, Repr

/-- `Answer` (models.py line 84): belongs to question `question` (an id);
`answerprofiles` is the list of its AnswerProfile rows, in the arbitrary
iteration order of `answer.answerprofiles.all()`. -/
structure Answer where
  id : Nat
  question : Nat
  text : String
  ordering : Nat
  answerprofiles : List AnswerProfile
  deriving DecidableEq, Repr

/-- `Question` (models.py line 43): `ordering` is the explicit ordering
key, `created` the auto timestamp; Meta ordering within one poll is
`(ordering, created, id)` ascending. -/
structure Question where
  id : Nat
  text : String
  ordering : Nat
  created : Nat
  deriving DecidableEq, Repr

/-- `Poll` (models.py line 19): owns its questions (stored here in raw
database insertion order; `poll.questions.all()` applies the Meta
ordering, see `Poll.get_question_list`); `default_profile` is the
nullable fallback profile id. -/
structure Poll where
  slug : String
  questions : List Question
  default_profile : Option Nat
  deriving DecidableEq, Repr

/-- `WalkthroughProfile` (models.py line 169): join row of the running
per-profile tally; the `walkthrough` foreign key is implicit (rows are
stored in `Walkthrough.walkthroughprofiles`, the source's related_name). -/
structure WalkthroughProfile where
  profile : Nat
  quantifier : Int
  deriving DecidableEq, Repr

/-- `Walkthrough` (models.py line 117): `answers` is the m2m answer
ledger; `answered_questions`, `progress`, `completed` and
`walkthroughprofiles` are the denormalized fields `_answered_questions`,
`_progress`, `_completed` and the WalkthroughProfile rows. -/
structure Walkthrough where
  answers : List Answer
  answered_questions : List Nat
  progress : Option Rat
  completed : Option Nat
  walkthroughprofiles : List WalkthroughProfile
  deriving DecidableEq, Repr

/-- A freshly created walkthrough: empty ledger, all denormalized fields
empty / null (the model fields are nullable and the m2m sets start empty). -/
def initialWalkthrough : Walkthrough :=
  { answers := []
    answered_questions := []
    progress := none
    completed := none
    walkthroughprofiles := [] }

/-- The Meta ordering of `Question` restricted to a single poll:
`(ordering, created, id)` ascending (models.py line 49). -/
def questionOrder (a b : Question) : Prop :=
  a.ordering < b.ordering ∨
    (a.ordering = b.ordering ∧
      (a.created < b.created ∨ (a.created = b.created ∧ a.id ≤ b.id)))

instance : DecidableRel questionOrder := fun a b => by
  unfold questionOrder
  exact inferInstance

instance : IsTotal Question questionOrder :=
  ⟨fun a b => by unfold questionOrder; omega⟩

instance : IsTrans Question questionOrder :=
  ⟨fun a b c hab hbc => by unfold questionOrder at *; omega⟩

/-- `Poll.get_question_list` (models.py line 39): `list(self.questions.all())`,
i.e. the poll's questions in Meta order. -/
def Poll.get_question_list (p : Poll) : List Question :=
  List.insertionSort questionOrder p.questions

/-- `Poll.get_first_question` (models.py line 36):
`self.questions.all()[0]`; indexing an empty queryset raises an
`IndexError` that this method does not catch, modelled as `Except.error ()`. -/
def Poll.get_first_question (p : Poll) : Except Unit Question :=
  match (p.get_question_list)[0]? with
  | some q => Except.ok q
  | none => Except.error ()

/-- `Question.get_index` (models.py line 58): `list.index(self)`, the first
position of the question in the poll's ordered question list. (For a
question of the poll the element is present; the embedding returns the
list length in the absent case, where the source would raise ValueError.) -/
def question_get_index (p : Poll) (q : Question) : Nat :=
  (p.get_question_list).indexOf q

/-- `Question.next` (models.py line 64):
`get_question_list()[get_index() + 1]`, with the `IndexError` at the end
of the list caught and converted to `None`. -/
def question_next (p : Poll) (q : Question) : Option Question :=
  (p.get_question_list)[question_get_index p q + 1]?

/-- The ordering of `order_by('-quantifier')`: descending quantifier
(no secondary key in the source, so the relative order of rows with
equal quantifiers is arbitrary). -/
def tallyOrder (r s : WalkthroughProfile) : Prop :=
  s.quantifier ≤ r.quantifier

instance : DecidableRel tallyOrder := fun r s =>
  inferInstanceAs (Decidable (s.quantifier ≤ r.quantifier))

instance : IsTotal WalkthroughProfile tallyOrder :=
  ⟨fun r s => le_total s.quantifier r.quantifier⟩

instance : IsTrans WalkthroughProfile tallyOrder :=
  ⟨fun _ _ _ hab hbc => le_trans hbc hab⟩

/-- `Walkthrough.get_matching_profile` (models.py line 150): the profile
of `walkthroughprofiles.order_by('-quantifier')[0]` (descending
quantifier, modelled as a stable descending sort); the `IndexError` on
an empty tally is caught and `poll.default_profile or None` is returned. -/
def Walkthrough.get_matching_profile (p : Poll) (w : Walkthrough) : Option Nat :=
  match (List.insertionSort tallyOrder w.walkthroughprofiles)[0]? with
  | some r => some r.profile
  | none => p.default_profile

/-- `Walkthrough.get_next_question` (models.py line 156): the first
question of the poll in Meta order whose id is not in
`_answered_questions`; when none remains (`IndexError` on `[0]`), the
handler sets `_completed = datetime.now()` if it is null and returns
`None`. The result pairs the possibly-updated walkthrough with the
returned question. -/
def Walkthrough.get_next_question (p : Poll) (w : Walkthrough) (now : Nat) :
    Walkthrough × Option Question :=
  match ((p.get_question_list).filter
      (fun q => !(w.answered_questions.contains q.id)))[0]? with
  | some q => (w, some q)
  | none =>
      (if w.completed = none then { w with completed := some now } else w, none)

/-- Membership of an answer in the ledger, by primary key (Django m2m
links are rows keyed by the answer's pk). -/
def ledgerHas (w : Walkthrough) (a : Answer) : Bool :=
  w.answers.any (fun b => b.id == a.id)

/-- One step of the loop at models.py lines 190-200: add one
AnswerProfile row to the tally — create a WalkthroughProfile with the
row's quantifier when the profile is not yet in `_profiles`, else add
the quantifier to the existing WalkthroughProfile. -/
def addToTally (tally : List WalkthroughProfile) (ap : AnswerProfile) :
    List WalkthroughProfile :=
  if tally.any (fun r => r.profile == ap.profile) then
    tally.map (fun r =>
      if r.profile == ap.profile then
        { r with quantifier := r.quantifier + ap.quantifier }
      else r)
  else
    tally ++ [{ profile := ap.profile, quantifier := ap.quantifier }]

/-- One step of the loop at models.py lines 205-209: subtract one
AnswerProfile row's quantifier from the matching WalkthroughProfile when
the profile is in `_profiles`; otherwise do nothing. The row is never
deleted, even at zero or below. -/
def subFromTally (tally : List WalkthroughProfile) (ap : AnswerProfile) :
    List WalkthroughProfile :=
  if tally.any (fun r => r.profile == ap.profile) then
    tally.map (fun r =>
      if r.profile == ap.profile then
        { r with quantifier := r.quantifier - ap.quantifier }
      else r)
  else tally

/-- models.py lines 211-222: recompute `_progress` and `_completed` from
the current counts. `all_questions_count` is `count() or 1`; progress is
`answered/total` as a (modelled) float when any question is answered,
else `0`; `_completed` is freshly set to `now` whenever the counts are
equal and reset to null otherwise. -/
def recomputeProgress (p : Poll) (now : Nat) (w : Walkthrough) : Walkthrough :=
  let all_questions_count : Nat :=
    if p.questions.length = 0 then 1 else p.questions.length
  let answered_questions_count : Nat := w.answered_questions.length
  { w with
    progress :=
      if 0 < answered_questions_count then
        some ((answered_questions_count : Rat) / (all_questions_count : Rat))
      else some 0
    completed :=
      if answered_questions_count = all_questions_count then some now
      else none }

/-- The `'add' in action` branch of `denormalize_walkthrough`
(models.py lines 182-200) followed by the progress/completed recompute:
runs after the new ledger row for `a` exists. If the question is already
answered (and `multiple_answers` is the fixed `False`), every other
ledger row for the same question is deleted through the through-table —
without firing any further reaction; otherwise the question is added to
`_answered_questions`. Then each AnswerProfile row of `a` is added to
the tally. -/
def denormalizeAdd (p : Poll) (now : Nat) (w : Walkthrough) (a : Answer) :
    Walkthrough :=
  let w1 :=
    if w.answered_questions.contains a.question then
      { w with answers :=
          w.answers.filter (fun b => !(b.question == a.question) || b.id == a.id) }
    else
      { w with answered_questions := w.answered_questions ++ [a.question] }
  let w2 := { w1 with
    walkthroughprofiles := a.answerprofiles.foldl addToTally w1.walkthroughprofiles }
  recomputeProgress p now w2

/-- The `'remove' in action` branch of `denormalize_walkthrough`
(models.py lines 202-209) followed by the recompute: the question is
removed from `_answered_questions` unconditionally, and each
AnswerProfile row of `a` is subtracted from the tally when its profile
is present. -/
def denormalizeRemove (p : Poll) (now : Nat) (w : Walkthrough) (a : Answer) :
    Walkthrough :=
  let w1 := { w with
    answered_questions := w.answered_questions.filter (fun q => !(q == a.question)) }
  let w2 := { w1 with
    walkthroughprofiles := a.answerprofiles.foldl subFromTally w1.walkthroughprofiles }
  recomputeProgress p now w2

/-- `recordAnswer(w, a)`: `w.answers.add(a)`. When `a` is already linked
the m2m `add` inserts nothing and fires the signal with an empty
`pk_set`, which the handler ignores (`if ... pk_set and len(pk_set)`), so
the state is unchanged; otherwise the ledger row is created and the
`post_add` reaction runs. -/
def recordAnswer (p : Poll) (now : Nat) (w : Walkthrough) (a : Answer) :
    Walkthrough :=
  if ledgerHas w a then w
  else denormalizeAdd p now { w with answers := w.answers ++ [a] } a

/-- `retractAnswer(w, a)`: `w.answers.remove(a)`. The m2m `remove`
deletes any matching ledger row and fires the signal with `pk_set`
containing `a`'s pk whether or not the link existed, so the
`post_remove` reaction always runs. -/
def retractAnswer (p : Poll) (now : Nat) (w : Walkthrough) (a : Answer) :
    Walkthrough :=
  denormalizeRemove p now
    { w with answers := w.answers.filter (fun b => !(b.id == a.id)) } a

/-- `clearAllAnswers(w)`: `w.answers.clear()` plus the `post_clear`
branch of the handler (models.py lines 226-231): the ledger, the
answered-question set and the WalkthroughProfile rows are all cleared,
and `_completed` and `_progress` are reset to null. -/
def clearAllAnswers (w : Walkthrough) : Walkthrough :=
  { w with
    answers := []
    answered_questions := []
    walkthroughprofiles := []
    completed := none
    progress := none }

/-- A ledger mutation: the three operations of the Answer Ledger, with
the mutation's wall-clock time attached to the two that read the clock. -/
inductive Op where
  | record (a : Answer) (now : Nat)
  | retract (a : Answer) (now : Nat)
  | clear
  deriving DecidableEq, Repr

/-- Apply one ledger mutation. -/
def applyOp (p : Poll) (w : Walkthrough) : Op → Walkthrough
  | Op.record a now => recordAnswer p now w a
  | Op.retract a now => retractAnswer p now w a
  | Op.clear => clearAllAnswers w

/-- Apply a sequence of ledger mutations, oldest first. -/
def runOps (p : Poll) (w : Walkthrough) (ops : List Op) : Walkthrough :=
  ops.foldl (applyOp p) w

/-- Sum of the WalkthroughProfile quantifiers recorded for a profile
(in reachable states at most one row per profile exists). -/
def tallyQuantifier (tally : List WalkthroughProfile) (pr : Nat) : Int :=
  ((tally.filter (fun r => r.profile == pr)).map (fun r => r.quantifier)).sum

/-- Total weight an answer contributes to a profile: the sum of the
quantifiers of its AnswerProfile rows for that profile. -/
def answerWeight (a : Answer) (pr : Nat) : Int :=
  ((a.answerprofiles.filter (fun ap => ap.profile == pr)).map
    (fun ap => ap.quantifier)).sum

/-- Modelled from the spec: the reference value of the invariant in §3 —
the sum of AnswerProfile.quantifier over all of the walkthrough's
currently-selected answers that map to the given profile. This is the
spec's formula, to be compared with the incrementally maintained
`tallyQuantifier`. -/
def spec_selected_quantifier_sum (ledger : List Answer) (pr : Nat) : Int :=
  (ledger.map (fun a => answerWeight a pr)).sum

/-- Well-formed input for a mutation, per §7 of the spec: a recorded
answer's question belongs to the walkthrough's poll (the presentation
layer only offers answers of the poll's questions). Retractions and
clears carry no obligation. -/
def OpWF (p : Poll) : Op → Prop
  | Op.record a _ => a.question ∈ p.questions.map (fun q => q.id)
  | Op.retract _ _ => True
  | Op.clear => True

/-- A mutation that actually fires the signal reaction on state `w`:
an m2m `add` of an already-linked answer fires the signal with an empty
`pk_set` and the handler ignores it, so only a `record` of a new answer
is effective; `remove` and `clear` always fire their reaction. -/
def Effective (w : Walkthrough) : Op → Prop
  | Op.record a _ => ledgerHas w a = false
  | Op.retract _ _ => True
  | Op.clear => True

/-- Every answered question belongs to the poll (holds in every state
reachable by well-formed mutations). -/
def AnsweredSub (p : Poll) (w : Walkthrough) : Prop :=
  ∀ q ∈ w.answered_questions, q ∈ p.questions.map (fun q2 => q2.id)

/-- Fixture: first question of the test polls. -/
def qOne : Question :=
  { id := 1, text := "Q1", ordering := 0, created := 0 }

/-- Fixture: second question of the two-question test poll. -/
def qTwo : Question :=
  { id := 2, text := "Q2", ordering := 1, created := 0 }

/-- Fixture: an answer to question 1 contributing weight 3 to profile 10. -/
def aOne : Answer :=
  { id := 1, question := 1, text := "A1", ordering := 0,
    answerprofiles := [{ profile := 10, quantifier := 3 }] }

/-- Fixture: a second answer to question 1 contributing weight 2 to
profile 10. -/
def aTwo : Answer :=
  { id := 2, question := 1, text := "A2", ordering := 1,
    answerprofiles := [{ profile := 10, quantifier := 2 }] }

/-- Fixture: a single-question poll. -/
def pollOne : Poll :=
  { slug := "poll-one", questions := [qOne], default_profile := none }

/-- Fixture: a two-question poll. -/
def pollTwo : Poll :=
  { slug := "poll-two", questions := [qOne, qTwo], default_profile := none }

/-- Fixture: a poll with no questions. -/
def pollEmpty : Poll :=
  { slug := "poll-empty", questions := [], default_profile := none }

/-- Fixture: the walkthrough obtained by answering question 1 of
`pollOne` with `aOne` and then re-answering it with `aTwo` (the
single-select replacement path). -/
def replayWalkthrough : Walkthrough :=
  runOps pollOne initialWalkthrough [Op.record aOne 1, Op.record aTwo 2]

/-- Fixture: the walkthrough state after recording `aOne` against
`pollOne` (ledger `[aOne]`, question 1 answered, tally `{10 : 3}`). -/
def wSingle : Walkthrough :=
  { answers := [aOne], answered_questions := [1], progress := some 1,
    completed := some 1, walkthroughprofiles := [{ profile := 10, quantifier := 3 }] }

/-- Fixture: a walkthrough with a two-row tally, profile 10 ahead. -/
def wTallyFixture : Walkthrough :=
  { answers := [], answered_questions := [], progress := none,
    completed := none,
    walkthroughprofiles :=
      [{ profile := 10, quantifier := 5 }, { profile := 11, quantifier := 2 }] }

/-- Fixture: a walkthrough against `pollTwo` with question 1 answered. -/
def wOneAnswered : Walkthrough :=
  { answers := [aOne], answered_questions := [1], progress := some (1 / 2),
    completed := none, walkthroughprofiles := [{ profile := 10, quantifier := 3 }] }

/-- The recompute step writes only `_progress` and `_completed`. -/
theorem recompute_answered (p : Poll) (now : Nat) (w : Walkthrough) :
    (recomputeProgress p now w).answered_questions = w.answered_questions := rfl

/-- The recompute step leaves the tally untouched. -/
theorem recompute_tally (p : Poll) (now : Nat) (w : Walkthrough) :
    (recomputeProgress p now w).walkthroughprofiles = w.walkthroughprofiles := rfl

/-- The recompute step leaves the ledger untouched. -/
theorem recompute_answers (p : Poll) (now : Nat) (w : Walkthrough) :
    (recomputeProgress p now w).answers = w.answers := rfl

/-- With at least one question in the poll the recomputed progress is
the answered count over the question count (also when the answered
count is zero, since then both sides are zero). -/
theorem recompute_progress_pos (p : Poll) (now : Nat) (w : Walkthrough)
    (h : p.questions.length ≠ 0) :
    (recomputeProgress p now w).progress
      = some ((w.answered_questions.length : Rat) / (p.questions.length : Rat)) := by
  rcases Nat.eq_zero_or_pos w.answered_questions.length with hc | hc
  · simp [recomputeProgress, h, hc]
  · simp [recomputeProgress, h, hc]

/-- With no answered questions the recomputed progress is zero. -/
theorem recompute_progress_zero (p : Poll) (now : Nat) (w : Walkthrough)
    (h : w.answered_questions.length = 0) :
    (recomputeProgress p now w).progress = some 0 := by
  simp [recomputeProgress, h]

/-- The recomputed completion timestamp: freshly `now` when the counts
agree (with a zero question count read as one), null otherwise. -/
theorem recompute_completed (p : Poll) (now : Nat) (w : Walkthrough) :
    (recomputeProgress p now w).completed
      = if w.answered_questions.length
            = (if p.questions.length = 0 then 1 else p.questions.length)
        then some now else none := rfl

/-- An effective `recordAnswer` creates the ledger row and runs the
`post_add` reaction. -/
theorem recordAnswer_fires (p : Poll) (now : Nat) (w : Walkthrough) (a : Answer)
    (hl : ledgerHas w a = false) :
    recordAnswer p now w a
      = denormalizeAdd p now { w with answers := w.answers ++ [a] } a := by
  simp [recordAnswer, hl]

/-- Answered questions after an effective `recordAnswer`: unchanged when
the question was already answered, appended otherwise. -/
theorem recordAnswer_answered (p : Poll) (now : Nat) (w : Walkthrough) (a : Answer)
    (hl : ledgerHas w a = false) :
    (recordAnswer p now w a).answered_questions
      = if w.answered_questions.contains a.question then w.answered_questions
        else w.answered_questions ++ [a.question] := by
  rw [recordAnswer_fires p now w a hl]
  simp only [denormalizeAdd, recompute_answered]
  split <;> rfl

/-- Answered questions after `retractAnswer`: the question is filtered
out unconditionally. -/
theorem retractAnswer_answered (p : Poll) (now : Nat) (w : Walkthrough) (a : Answer) :
    (retractAnswer p now w a).answered_questions
      = w.answered_questions.filter (fun q => !(q == a.question)) := rfl

/-- The ledger after `retractAnswer`: rows matching the answer's pk are
deleted, all others survive. -/
theorem retractAnswer_answers (p : Poll) (now : Nat) (w : Walkthrough) (a : Answer) :
    (retractAnswer p now w a).answers
      = w.answers.filter (fun b => !(b.id == a.id)) := rfl

/-- The tally after `retractAnswer` is the fold of `subFromTally` over
the answer's AnswerProfile rows. -/
theorem retractAnswer_tally (p : Poll) (now : Nat) (w : Walkthrough) (a : Answer) :
    (retractAnswer p now w a).walkthroughprofiles
      = a.answerprofiles.foldl subFromTally w.walkthroughprofiles := rfl

/-- An element stays out of a list after filtering on disequality with it. -/
theorem contains_filter_self_false (l : List Nat) (x : Nat) :
    (l.filter (fun q => !(q == x))).contains x = false := by
  simp

/-- Indexing a filtered list at zero is searching for the first match. -/
theorem getElem_zero_filter_eq_find {α : Type} (l : List α) (f : α → Bool) :
    (l.filter f)[0]? = l.find? f := by
  induction l with
  | nil => rfl
  | cons a l ih =>
    by_cases h : f a <;> simp [List.filter_cons, h, List.find?_cons, ih]

/-- The tally-row subtraction map does not change any row's profile. -/
theorem map_profile_sub (t : List WalkthroughProfile) (ap : AnswerProfile) :
    ((t.map (fun r =>
        if r.profile == ap.profile then
          { r with quantifier := r.quantifier - ap.quantifier }
        else r)).map (fun r => r.profile))
      = t.map (fun r => r.profile) := by
  induction t with
  | nil => rfl
  | cons r rest ih =>
    simp only [List.map_cons, ih]
    by_cases h : (r.profile == ap.profile) = true
    · rw [if_pos h]
    · rw [if_neg h]

/-- `subFromTally` preserves the multiset of profiles (rows are updated
in place or left alone, never created or deleted). -/
theorem subFromTally_profiles (t : List WalkthroughProfile) (ap : AnswerProfile) :
    (subFromTally t ap).map (fun r => r.profile) = t.map (fun r => r.profile) := by
  unfold subFromTally
  split
  · exact map_profile_sub t ap
  · rfl

/-- When no row has the given profile, the subtraction map is the identity. -/
theorem map_no_sub (t : List WalkthroughProfile) (ap : AnswerProfile)
    (h : ap.profile ∉ t.map (fun r => r.profile)) :
    t.map (fun r =>
        if r.profile == ap.profile then
          { r with quantifier := r.quantifier - ap.quantifier }
        else r)
      = t := by
  induction t with
  | nil => rfl
  | cons r rest ih =>
    simp only [List.map_cons, List.mem_cons] at h
    push_neg at h
    have h1 : ¬((r.profile == ap.profile) = true) := by
      simp only [beq_iff_eq]
      exact fun e => h.1 e.symm
    rw [List.map_cons, if_neg h1, ih h.2]

/-- Splitting the tally sum at the head row. -/
theorem tallyQuantifier_cons (r : WalkthroughProfile) (t : List WalkthroughProfile)
    (pr : Nat) :
    tallyQuantifier (r :: t) pr
      = (if r.profile == pr then r.quantifier else 0) + tallyQuantifier t pr := by
  unfold tallyQuantifier
  rw [List.filter_cons]
  by_cases h : (r.profile == pr) = true
  · rw [if_pos h, if_pos h, List.map_cons, List.sum_cons]
  · rw [if_neg h, if_neg h, zero_add]

/-- The `any` membership test of the handler agrees with membership of
the profile in the tally's profile list. -/
theorem any_profile_eq_mem (t : List WalkthroughProfile) (x : Nat) :
    (t.any (fun r => r.profile == x) = true) ↔ x ∈ t.map (fun r => r.profile) := by
  simp only [List.any_eq_true, List.mem_map, beq_iff_eq]

/-- Effect of one `subFromTally` step on the per-profile sum, when the
step's profile is present and the tally has one row per profile. -/
theorem subFromTally_quantifier (t : List WalkthroughProfile) (ap : AnswerProfile)
    (pr : Nat) (hnodup : (t.map (fun r => r.profile)).Nodup)
    (hpres : ap.profile ∈ t.map (fun r => r.profile)) :
    tallyQuantifier (subFromTally t ap) pr
      = tallyQuantifier t pr - (if ap.profile == pr then ap.quantifier else 0) := by
  have hs : subFromTally t ap
      = t.map (fun x =>
          if x.profile == ap.profile then
            { x with quantifier := x.quantifier - ap.quantifier }
          else x) := by
    unfold subFromTally
    rw [if_pos ((any_profile_eq_mem t ap.profile).mpr hpres)]
  rw [hs]
  clear hs
  induction t with
  | nil => simp at hpres
  | cons r rest ih =>
    simp only [List.map_cons, List.nodup_cons] at hnodup
    simp only [List.map_cons, List.mem_cons] at hpres
    by_cases hr : (r.profile == ap.profile) = true
    · have hreq : r.profile = ap.profile := by simpa using hr
      have hnr : ap.profile ∉ rest.map (fun x => x.profile) := hreq ▸ hnodup.1
      rw [List.map_cons, if_pos hr, map_no_sub rest ap hnr,
        tallyQuantifier_cons, tallyQuantifier_cons]
      by_cases hp : (ap.profile == pr) = true
      · have : (r.profile == pr) = true := by simp [hreq]; simpa using hp
        simp only [this, if_pos, hp]
        omega
      · have : ¬((r.profile == pr) = true) := by
          simp only [beq_iff_eq] at hp ⊢
          exact hreq ▸ hp
        simp only [if_neg this, if_neg hp]
        omega
    · have hmem : ap.profile ∈ rest.map (fun x => x.profile) := by
        rcases hpres with h | h
        · exact absurd (by simp [h]) hr
        · exact h
      rw [List.map_cons, if_neg hr, tallyQuantifier_cons, tallyQuantifier_cons,
        ih hnodup.2 hmem]
      omega

/-- The retraction fold over an answer's AnswerProfile rows preserves
the tally's profile list. -/
theorem foldl_subFromTally_profiles (aps : List AnswerProfile)
    (t : List WalkthroughProfile) :
    (aps.foldl subFromTally t).map (fun r => r.profile)
      = t.map (fun r => r.profile) := by
  induction aps generalizing t with
  | nil => rfl
  | cons ap rest ih => rw [List.foldl_cons, ih, subFromTally_profiles]

/-- Effect of the whole retraction fold on the per-profile sum: each of
the answer's rows is subtracted, provided every row's profile is present
and the tally has one row per profile. -/
theorem foldl_subFromTally_quantifier (aps : List AnswerProfile)
    (t : List WalkthroughProfile) (pr : Nat)
    (hnodup : (t.map (fun r => r.profile)).Nodup)
    (hpres : ∀ ap ∈ aps, ap.profile ∈ t.map (fun r => r.profile)) :
    tallyQuantifier (aps.foldl subFromTally t) pr
      = tallyQuantifier t pr
        - ((aps.filter (fun ap => ap.profile == pr)).map
            (fun ap => ap.quantifier)).sum := by
  induction aps generalizing t with
  | nil => simp
  | cons ap rest ih =>
    rw [List.foldl_cons]
    have h1 : ap.profile ∈ t.map (fun r => r.profile) := hpres ap (by simp)
    have hnodup2 : ((subFromTally t ap).map (fun r => r.profile)).Nodup := by
      rw [subFromTally_profiles]; exact hnodup
    have hpres2 : ∀ b ∈ rest, b.profile ∈ (subFromTally t ap).map (fun r => r.profile) := by
      intro b hb
      rw [subFromTally_profiles]
      exact hpres b (by simp [hb])
    rw [ih (subFromTally t ap) hnodup2 hpres2,
      subFromTally_quantifier t ap pr hnodup h1]
    by_cases hp : (ap.profile == pr) = true <;> simp [List.filter_cons, hp] <;> omega

/-- An ineffective `recordAnswer` (answer already linked) is a no-op:
the m2m add inserts nothing and the signal carries an empty `pk_set`. -/
theorem recordAnswer_noop (p : Poll) (now : Nat) (w : Walkthrough) (a : Answer)
    (hl : ledgerHas w a = true) : recordAnswer p now w a = w := by
  simp [recordAnswer, hl]

/-- One well-formed mutation preserves the answered-questions-belong-
to-the-poll invariant. -/
theorem answeredSub_applyOp (p : Poll) (w : Walkthrough) (o : Op)
    (hw : AnsweredSub p w) (ho : OpWF p o) : AnsweredSub p (applyOp p w o) := by
  cases o with
  | record a now =>
    by_cases hl : ledgerHas w a = true
    · have heq : applyOp p w (Op.record a now) = w := recordAnswer_noop p now w a hl
      rw [heq]
      exact hw
    · have hl2 : ledgerHas w a = false := by
        revert hl
        cases ledgerHas w a <;> simp
      intro q hq
      have hrw : (applyOp p w (Op.record a now)).answered_questions
          = if w.answered_questions.contains a.question then w.answered_questions
            else w.answered_questions ++ [a.question] :=
        recordAnswer_answered p now w a hl2
      rw [hrw] at hq
      by_cases hc : w.answered_questions.contains a.question = true
      · rw [if_pos hc] at hq
        exact hw q hq
      · rw [if_neg hc] at hq
        rcases List.mem_append.mp hq with h | h
        · exact hw q h
        · rw [List.mem_singleton.mp h]
          exact ho
  | retract a now =>
    intro q hq
    have hrw : (applyOp p w (Op.retract a now)).answered_questions
        = w.answered_questions.filter (fun q2 => !(q2 == a.question)) :=
      retractAnswer_answered p now w a
    rw [hrw] at hq
    exact hw q (List.mem_of_mem_filter hq)
  | clear =>
    intro q hq
    exact absurd hq (List.not_mem_nil q)

/-- A sequence of well-formed mutations preserves the invariant. -/
theorem answeredSub_runOps (p : Poll) (ops : List Op) (w : Walkthrough)
    (hw : AnsweredSub p w) (hwf : ∀ o ∈ ops, OpWF p o) :
    AnsweredSub p (runOps p w ops) := by
  induction ops generalizing w with
  | nil => exact hw
  | cons o rest ih =>
    exact ih (applyOp p w o)
      (answeredSub_applyOp p w o hw (hwf o (by simp)))
      (fun o2 h2 => hwf o2 (by simp [h2]))

/-- The invariant holds of a fresh walkthrough. -/
theorem answeredSub_initial (p : Poll) : AnsweredSub p initialWalkthrough :=
  fun q hq => absurd hq (List.not_mem_nil q)

/-- Progress written by an effective `recordAnswer` on a poll with
questions: the new answered count over the question count. -/
theorem recordAnswer_progress (p : Poll) (now : Nat) (w : Walkthrough) (a : Answer)
    (hl : ledgerHas w a = false) (h : p.questions.length ≠ 0) :
    (recordAnswer p now w a).progress
      = some (((recordAnswer p now w a).answered_questions.length : Rat)
          / (p.questions.length : Rat)) := by
  rw [recordAnswer_fires p now w a hl]
  simp only [denormalizeAdd]
  rw [recompute_progress_pos _ _ _ h, recompute_answered]

/-- Progress written by `retractAnswer` on a poll with questions. -/
theorem retractAnswer_progress (p : Poll) (now : Nat) (w : Walkthrough) (a : Answer)
    (h : p.questions.length ≠ 0) :
    (retractAnswer p now w a).progress
      = some (((retractAnswer p now w a).answered_questions.length : Rat)
          / (p.questions.length : Rat)) := by
  simp only [retractAnswer, denormalizeRemove]
  rw [recompute_progress_pos _ _ _ h, recompute_answered]

/-- Progress written by `retractAnswer` when nothing was answered. -/
theorem retractAnswer_progress_zero (p : Poll) (now : Nat) (w : Walkthrough)
    (a : Answer) (hz : w.answered_questions = []) :
    (retractAnswer p now w a).progress = some 0 := by
  simp only [retractAnswer, denormalizeRemove]
  exact recompute_progress_zero p now _ (by simp [hz])

/-- Completion written by an effective `recordAnswer`. -/
theorem recordAnswer_completed (p : Poll) (now : Nat) (w : Walkthrough) (a : Answer)
    (hl : ledgerHas w a = false) :
    (recordAnswer p now w a).completed
      = if (recordAnswer p now w a).answered_questions.length
            = (if p.questions.length = 0 then 1 else p.questions.length)
        then some now else none := by
  rw [recordAnswer_fires p now w a hl]
  simp only [denormalizeAdd]
  rw [recompute_completed]
  simp only [recompute_answered]

/-- Completion written by `retractAnswer`. -/
theorem retractAnswer_completed (p : Poll) (now : Nat) (w : Walkthrough) (a : Answer) :
    (retractAnswer p now w a).completed
      = if (retractAnswer p now w a).answered_questions.length
            = (if p.questions.length = 0 then 1 else p.questions.length)
        then some now else none := by
  simp only [retractAnswer, denormalizeRemove]
  rw [recompute_completed]
  simp only [recompute_answered]

/-- Claim C1 (refuted by the code, code bug): in the single-select
replacement scenario — `aOne` (weight 3 to profile 10) recorded, then
`aTwo` (weight 2 to profile 10, same question) recorded — the
WalkthroughProfile quantifier for profile 10 is 5, while the sum of
AnswerProfile quantifiers over the currently-selected answers (only
`aTwo`) is 2: the through-table deletion of the prior ledger row at
models.py line 186 bypasses the `m2m_changed` reaction, so the prior
answer's weights are never subtracted and the invariant fails. -/
theorem c1_tally_diverges_from_ledger :
    tallyQuantifier replayWalkthrough.walkthroughprofiles 10 = 5
    ∧ spec_selected_quantifier_sum replayWalkthrough.answers 10 = 2
    ∧ tallyQuantifier replayWalkthrough.walkthroughprofiles 10
        ≠ spec_selected_quantifier_sum replayWalkthrough.answers 10 := by
  refine ⟨rfl, rfl, by decide⟩

/-- Claim C3 (refuted by the code, code bug): re-answering the
single-select question does keep it answered and does replace the
ledger row, but the prior answer's weights are NOT subtracted: the
tally for profile 10 ends at 3 + 2 = 5, not at 3 - 3 + 2 = 2 as the
claim requires. -/
theorem c3_reanswer_keeps_prior_weights :
    replayWalkthrough.answered_questions = [1]
    ∧ replayWalkthrough.answers = [aTwo]
    ∧ tallyQuantifier replayWalkthrough.walkthroughprofiles 10 = 3 + 2
    ∧ tallyQuantifier replayWalkthrough.walkthroughprofiles 10 ≠ 3 - 3 + 2 := by
  refine ⟨rfl, rfl, rfl, by decide⟩

/-- Claim C2, counterexample: `clearAllAnswers` is a ledger mutation
after which no question is answered, yet the code resets `_progress` to
null (absent), not to 0 as the claim states. -/
theorem c2_clear_progress_counterexample :
    (runOps pollOne initialWalkthrough [Op.record aOne 1, Op.clear]).answered_questions = []
    ∧ (runOps pollOne initialWalkthrough [Op.record aOne 1, Op.clear]).progress = none
    ∧ (none : Option Rat) ≠ some 0 := by
  refine ⟨rfl, rfl, by decide⟩

/-- Claim C2 (amended): after every effective recordAnswer/retractAnswer
mutation in a well-formed run, `progress` equals the answered-question
count over the poll's question count (which is 0 when nothing is
answered), and is 0 for a zero-question poll; `clearAllAnswers` instead
resets progress to null. -/
theorem c2_progress_after_mutation (p : Poll) (ops : List Op)
    (hwf : ∀ o ∈ ops, OpWF p o) (o : Op) (ho : OpWF p o) (hnc : o ≠ Op.clear)
    (heff : Effective (runOps p initialWalkthrough ops) o) :
    (p.questions.length ≠ 0 →
      (applyOp p (runOps p initialWalkthrough ops) o).progress
        = some (((applyOp p (runOps p initialWalkthrough ops) o).answered_questions.length : Rat)
            / (p.questions.length : Rat)))
    ∧ (p.questions.length = 0 →
      (applyOp p (runOps p initialWalkthrough ops) o).progress = some 0) := by
  have hsub : AnsweredSub p (runOps p initialWalkthrough ops) :=
    answeredSub_runOps p ops initialWalkthrough (answeredSub_initial p) hwf
  cases o with
  | clear => exact absurd rfl hnc
  | record a now =>
    refine ⟨fun h => ?_, fun h => ?_⟩
    · exact recordAnswer_progress p now _ a heff h
    · exfalso
      have hq : p.questions = [] := List.length_eq_zero.mp h
      have hmem : a.question ∈ p.questions.map (fun q2 => q2.id) := ho
      rw [hq] at hmem
      simp at hmem
  | retract a now =>
    refine ⟨fun h => ?_, fun h => ?_⟩
    · exact retractAnswer_progress p now _ a h
    · have hq : p.questions = [] := List.length_eq_zero.mp h
      have hempty : (runOps p initialWalkthrough ops).answered_questions = [] := by
        apply List.eq_nil_iff_forall_not_mem.mpr
        intro q hmem
        have h2 := hsub q hmem
        rw [hq] at h2
        simp at h2
      exact retractAnswer_progress_zero p now _ a hempty

/-- Witness for C2's amended theorem: recording `aOne` on a fresh
walkthrough of the one-question poll yields progress 1. -/
theorem c2_progress_witness :
    (applyOp pollOne (runOps pollOne initialWalkthrough []) (Op.record aOne 1)).progress
      = some 1 := by
  have h := (c2_progress_after_mutation pollOne [] (by simp) (Op.record aOne 1)
      (show aOne.question ∈ pollOne.questions.map (fun q2 => q2.id) by decide)
      (by decide)
      (show ledgerHas (runOps pollOne initialWalkthrough []) aOne = false by decide)).1
      (by decide)
  rw [h]
  rw [show (applyOp pollOne (runOps pollOne initialWalkthrough [])
      (Op.record aOne 1)).answered_questions.length = 1 from rfl]
  rw [show pollOne.questions.length = 1 from rfl]
  norm_num

/-- Claim C4, counterexample: with the one-question poll, recording
`aOne` at time 1 completes the walkthrough with timestamp 1; recording
`aTwo` at time 2 (replacing the answer, walkthrough stays complete)
overwrites the timestamp with 2 — it is not left unchanged. -/
theorem c4_completed_counterexample :
    (runOps pollOne initialWalkthrough [Op.record aOne 1]).completed = some 1
    ∧ (runOps pollOne initialWalkthrough [Op.record aOne 1, Op.record aTwo 2]).completed
        = some 2
    ∧ (runOps pollOne initialWalkthrough [Op.record aOne 1, Op.record aTwo 2]).completed
        ≠ (runOps pollOne initialWalkthrough [Op.record aOne 1]).completed := by
  refine ⟨rfl, rfl, by decide⟩

/-- Claim C4 (amended): every effective recordAnswer/retractAnswer
mutation freshly reassigns the completion timestamp to the mutation's
own time whenever the answered-question count equals the question count
(a zero question count being read as one), and resets it to null
whenever the counts differ; `clearAllAnswers` resets it to null. -/
theorem c4_completed_tracks_mutations (p : Poll) (now : Nat) (w : Walkthrough)
    (a : Answer) (hl : ledgerHas w a = false) :
    ((recordAnswer p now w a).completed
        = if (recordAnswer p now w a).answered_questions.length
              = (if p.questions.length = 0 then 1 else p.questions.length)
          then some now else none)
    ∧ ((retractAnswer p now w a).completed
        = if (retractAnswer p now w a).answered_questions.length
              = (if p.questions.length = 0 then 1 else p.questions.length)
          then some now else none)
    ∧ (clearAllAnswers w).completed = none :=
  ⟨recordAnswer_completed p now w a hl, retractAnswer_completed p now w a, rfl⟩

/-- Witness for C4's amended theorem: recording `aOne` at time 7
completes the one-question poll with timestamp 7. -/
theorem c4_completed_witness :
    (recordAnswer pollOne 7 initialWalkthrough aOne).completed = some 7 := by
  have h := (c4_completed_tracks_mutations pollOne 7 initialWalkthrough aOne
      (by decide)).1
  rw [h]
  decide

/-- Claim C5 (confirmed): with a non-empty tally,
`get_matching_profile` returns the profile of a tally row whose
quantifier is maximal; with an empty tally it returns the poll's
`default_profile` when set and none otherwise — never an error. -/
theorem c5_get_matching_profile_spec (p : Poll) (w : Walkthrough) :
    (w.walkthroughprofiles = [] →
      Walkthrough.get_matching_profile p w = p.default_profile)
    ∧ (w.walkthroughprofiles ≠ [] →
      ∃ r ∈ w.walkthroughprofiles,
        Walkthrough.get_matching_profile p w = some r.profile
        ∧ ∀ s ∈ w.walkthroughprofiles, s.quantifier ≤ r.quantifier) := by
  constructor
  · intro h
    unfold Walkthrough.get_matching_profile
    rw [h]
    rfl
  · intro h
    have hp : (List.insertionSort tallyOrder w.walkthroughprofiles).Perm
        w.walkthroughprofiles := List.perm_insertionSort tallyOrder w.walkthroughprofiles
    have hs := List.sorted_insertionSort tallyOrder w.walkthroughprofiles
    cases hL : List.insertionSort tallyOrder w.walkthroughprofiles with
    | nil =>
      exfalso
      rw [hL] at hp
      exact h hp.nil_eq.symm
    | cons r rest =>
      refine ⟨r, ?_, ?_, ?_⟩
      · apply hp.subset
        rw [hL]
        exact List.mem_cons_self r rest
      · unfold Walkthrough.get_matching_profile
        rw [hL, List.getElem?_cons_zero]
      · intro s hsmem
        have hsmem2 : s ∈ r :: rest := by
          rw [← hL]
          exact hp.mem_iff.mpr hsmem
        rcases List.mem_cons.mp hsmem2 with he | hm
        · rw [he]
        · rw [hL] at hs
          exact (List.sorted_cons.mp hs).1 s hm

/-- Witness for C5: on the fixture tally `{10 : 5, 11 : 2}` the matching
profile is 10. -/
theorem c5_matching_profile_witness :
    Walkthrough.get_matching_profile pollTwo wTallyFixture = some 10 := by
  obtain ⟨r, hr, heq, hmax⟩ :=
    (c5_get_matching_profile_spec pollTwo wTallyFixture).2 (by decide)
  have h5 := hmax { profile := 10, quantifier := 5 } (by decide)
  simp only [wTallyFixture, List.mem_cons, List.not_mem_nil, or_false] at hr
  rcases hr with he | he
  · rw [heq, he]
  · rw [he] at h5
    simp at h5

/-- Claim C6 (confirmed): retracting an answer removes its question from
the answered set, keeps every tally row in place (no row is deleted,
even at zero or below), and subtracts each of the answer's AnswerProfile
quantifiers from the matching WalkthroughProfile quantifier — under the
hypotheses that the answer is the only recorded answer to its question,
each of its profiles has a tally row, and the tally has one row per
profile (all of which hold in reachable states). -/
theorem c6_retract_only_answer (p : Poll) (now : Nat) (w : Walkthrough) (a : Answer)
    (hmem : a ∈ w.answers)
    (honly : ∀ b ∈ w.answers, b.question = a.question → b.id = a.id)
    (hnodup : (w.walkthroughprofiles.map (fun r => r.profile)).Nodup)
    (hpres : ∀ ap ∈ a.answerprofiles,
      ap.profile ∈ w.walkthroughprofiles.map (fun r => r.profile)) :
    ((retractAnswer p now w a).answered_questions.contains a.question = false)
    ∧ ((retractAnswer p now w a).walkthroughprofiles.map (fun r => r.profile)
        = w.walkthroughprofiles.map (fun r => r.profile))
    ∧ ∀ pr, tallyQuantifier (retractAnswer p now w a).walkthroughprofiles pr
        = tallyQuantifier w.walkthroughprofiles pr - answerWeight a pr := by
  refine ⟨?_, ?_, ?_⟩
  · rw [retractAnswer_answered]
    exact contains_filter_self_false w.answered_questions a.question
  · rw [retractAnswer_tally]
    exact foldl_subFromTally_profiles a.answerprofiles w.walkthroughprofiles
  · intro pr
    rw [retractAnswer_tally]
    exact foldl_subFromTally_quantifier a.answerprofiles w.walkthroughprofiles
      pr hnodup hpres

/-- Witness for C6: retracting `aOne` from the state where it is the
only answer unanswers question 1 and lowers profile 10's tally by 3. -/
theorem c6_retract_witness :
    (retractAnswer pollOne 2 wSingle aOne).answered_questions.contains 1 = false
    ∧ tallyQuantifier (retractAnswer pollOne 2 wSingle aOne).walkthroughprofiles 10
        = tallyQuantifier wSingle.walkthroughprofiles 10 - answerWeight aOne 10 := by
  have h := c6_retract_only_answer pollOne 2 wSingle aOne (by decide)
      (by decide) (by decide) (by decide)
  exact ⟨h.1, h.2.2 10⟩

/-- Claim C7 (confirmed): `get_next_question` returns the first question
in the poll's Meta order (which is sorted by `(ordering, created, id)`
and a permutation of the poll's questions) whose id is not answered, and
a none sentinel when every question is answered; `Question.next` on the
last question returns a none sentinel, not an error. -/
theorem c7_get_next_question_spec (p : Poll) (w : Walkthrough) (now : Nat)
    (q : Question) :
    ((Walkthrough.get_next_question p w now).2
        = (p.get_question_list).find?
            (fun q2 => !(w.answered_questions.contains q2.id)))
    ∧ ((∀ q2 ∈ p.get_question_list, w.answered_questions.contains q2.id)
        → (Walkthrough.get_next_question p w now).2 = none)
    ∧ List.Sorted questionOrder p.get_question_list
    ∧ (p.get_question_list).Perm p.questions
    ∧ (question_get_index p q + 1 = (p.get_question_list).length
        → question_next p q = none) := by
  refine ⟨?_, ?_, ?_, ?_, ?_⟩
  · unfold Walkthrough.get_next_question
    rw [getElem_zero_filter_eq_find]
    cases hF : (p.get_question_list).find?
        (fun q2 => !(w.answered_questions.contains q2.id)) with
    | none => rfl
    | some q2 => rfl
  · intro hall
    unfold Walkthrough.get_next_question
    have hfil : (p.get_question_list).filter
        (fun q2 => !(w.answered_questions.contains q2.id)) = [] := by
      rw [List.filter_eq_nil_iff]
      intro q2 hq2
      simpa using hall q2 hq2
    rw [hfil]
    rfl
  · exact List.sorted_insertionSort questionOrder p.questions
  · exact List.perm_insertionSort questionOrder p.questions
  · intro hidx
    unfold question_next
    apply List.getElem?_eq_none
    omega

/-- Witness for C7: with question 1 of the two-question poll answered,
the next question is question 2, and `next` on the final question 2
returns none. -/
theorem c7_next_question_witness :
    (Walkthrough.get_next_question pollTwo wOneAnswered 5).2 = some qTwo
    ∧ question_next pollTwo qTwo = none := by
  constructor
  · rw [(c7_get_next_question_spec pollTwo wOneAnswered 5 qTwo).1]
    decide
  · exact (c7_get_next_question_spec pollTwo wOneAnswered 5 qTwo).2.2.2.2 (by decide)

/-- Claim C8 (confirmed): `clearAllAnswers` resets the ledger, the
answered-question set, the tally, the completion timestamp and the
progress fraction to empty/null, and clearing twice gives exactly the
state of clearing once. -/
theorem c8_clear_resets_idempotent (w : Walkthrough) :
    clearAllAnswers (clearAllAnswers w) = clearAllAnswers w
    ∧ (clearAllAnswers w).answers = []
    ∧ (clearAllAnswers w).answered_questions = []
    ∧ (clearAllAnswers w).walkthroughprofiles = []
    ∧ (clearAllAnswers w).completed = none
    ∧ (clearAllAnswers w).progress = none :=
  ⟨rfl, rfl, rfl, rfl, rfl, rfl⟩

/-- Claim C9 (confirmed): `retractAnswer` removes the answer's question
from the answered set unconditionally — the `post_remove` reaction runs
whether or not the answer was recorded, and other recorded answers to
the same question survive in the ledger while the question is marked
unanswered. -/
theorem c9_retract_unanswers_unconditionally (p : Poll) (now : Nat)
    (w : Walkthrough) (a : Answer) :
    (retractAnswer p now w a).answered_questions
        = w.answered_questions.filter (fun q => !(q == a.question))
    ∧ (retractAnswer p now w a).answered_questions.contains a.question = false
    ∧ (retractAnswer p now w a).answers
        = w.answers.filter (fun b => !(b.id == a.id)) := by
  refine ⟨retractAnswer_answered p now w a, ?_, retractAnswer_answers p now w a⟩
  rw [retractAnswer_answered]
  exact contains_filter_self_false w.answered_questions a.question

/-- Claim C10 (confirmed): `get_first_question` on a zero-question poll
propagates the `IndexError` (modelled `Except.error`) instead of
returning a none sentinel, and on a non-empty poll returns the first
question of the ordered question list. -/
theorem c10_get_first_question_spec (p : Poll) :
    (p.questions = [] → p.get_first_question = Except.error ())
    ∧ (p.questions ≠ [] → ∃ q, p.get_first_question = Except.ok q
        ∧ (p.get_question_list)[0]? = some q) := by
  constructor
  · intro h
    unfold Poll.get_first_question Poll.get_question_list
    rw [h]
    rfl
  · intro h
    have h2 : (p.get_question_list).Perm p.questions :=
      List.perm_insertionSort questionOrder p.questions
    cases hL : p.get_question_list with
    | nil =>
      exfalso
      rw [hL] at h2
      exact h h2.nil_eq.symm
    | cons q rest =>
      refine ⟨q, ?_, ?_⟩
      · unfold Poll.get_first_question
        rw [hL, List.getElem?_cons_zero]
      · exact List.getElem?_cons_zero

/-- Witness for C10: the empty poll's first question is an error. -/
theorem c10_first_question_witness :
    pollEmpty.get_first_question = Except.error () :=
  (c10_get_first_question_spec pollEmpty).1 rfl
